import Mathlib

/-!
Verification of the OTA update orchestrator, Wi-Fi autojoin step and task-watchdog
example task of the ESP32 Memfault demo application
(examples/esp32/apps/memfault_demo_app/main/main.c).

The orchestrator's observable behaviour is embedded as event traces: every call the
code makes to a collaborator (LED, metrics-session tracker, telemetry sink, restart
primitive, settings store, Wi-Fi join) is one trace event. The external update-check
capability (memfault_esp_port_ota_update) is modelled by the environment choice of
which installed callbacks fire and which value the call returns.
-/

/-- LED colors, from led.h as used by main.c. -/
inductive LedColor
  | Red
  | Green
  | Blue
  | Off
deriving DecidableEq, Repr

/-- One observable collaborator call made by the code in main.c. -/
inductive Event
  | ledSet (c : LedColor)
  | logInfo
  | logDebug
  | logError
  | sessionStart
  | sessionEnd (code : Int)
  | rebootMark
  | restart
  | traceEvent
  | logTriggerCollection
  | syncSuccess
  | syncFailure
  | metricAdd
  | readCreds
  | wifiJoinAttempt
  | updateCheckCall
deriving DecidableEq, Repr

/-- Shallow embedding of prv_handle_ota_upload_available (main.c lines 165-175):
set the LED blue, log, start the OTA metrics session, return true. -/
def prv_handle_ota_upload_available : List Event × Bool :=
  ([.ledSet .Blue, .logInfo, .sessionStart], true)

/-- Shallow embedding of prv_handle_ota_download_complete (main.c lines 177-187):
log, end the metrics session with code 0, mark a reboot imminent, call esp_restart.
esp_restart does not return, so the trace of this callback ends at the restart
event and the `return true` on line 186 is unreachable. -/
def prv_handle_ota_download_complete : List Event :=
  [.logInfo, .sessionEnd 0, .rebootMark, .restart]

/-- One environment behaviour of the external update-check capability: whether it
invokes each of the two installed handlers, and the value it would return. -/
structure OtaBehavior where
  fires_update_available : Bool
  fires_download_complete : Bool
  rv : Int
deriving Repr

/-- Result of running code that may hit esp_restart: either control returns with the
accumulated trace, or the device restarted and the trace stops there. -/
inductive CallResult
  | finished (events : List Event) (rv : Int)
  | restarted (events : List Event)
deriving DecidableEq, Repr

/-- Environment model of memfault_esp_port_ota_update applied to the handler built in
prv_memfault_ota (main.c lines 194-202): the capability may invoke
prv_handle_ota_upload_available, then possibly prv_handle_ota_download_complete
(which restarts and never returns), and otherwise returns rv. -/
def memfault_esp_port_ota_update (b : OtaBehavior) : CallResult :=
  let ua := if b.fires_update_available then prv_handle_ota_upload_available.1 else []
  if b.fires_download_complete then
    .restarted (ua ++ prv_handle_ota_download_complete)
  else
    .finished ua b.rv

/-- Result of running a void function that may hit esp_restart. -/
inductive TickResult
  | finished (events : List Event)
  | restarted (events : List Event)
deriving DecidableEq, Repr

/-- The trace of a TickResult. -/
def TickResult.events : TickResult → List Event
  | .finished evs => evs
  | .restarted evs => evs

/-- Shallow embedding of prv_memfault_ota (main.c lines 189-231), compiled with
CONFIG_MEMFAULT_APP_OTA and CONFIG_MEMFAULT_METRICS_SYNC_SUCCESS enabled.
connected is the value the connectivity predicate memfault_esp_port_wifi_connected
returns during the tick (the function re-checks it on line 190). -/
def prv_memfault_ota (connected : Bool) (b : OtaBehavior) : TickResult :=
  if connected = false then .finished []
  else
    match memfault_esp_port_ota_update b with
    | .restarted evs => .restarted ([.logInfo, .updateCheckCall] ++ evs)
    | .finished evs rv =>
      let sync := if rv = 0 ∨ rv = 1 then [Event.syncSuccess] else [Event.syncFailure]
      let outcome :=
        if rv = 0 then [Event.logInfo, .ledSet .Green]
        else if rv = 1 then [Event.logInfo]
        else if rv < 0 then
          [Event.logError, .sessionEnd rv, .traceEvent, .logTriggerCollection,
           .ledSet .Red]
        else []
      .finished ([.logInfo, .updateCheckCall] ++ evs ++ sync ++ outcome)

/-- Shallow embedding of memfault_esp_port_wifi_autojoin (main.c lines 237-253).
creds models the two out-parameters of wifi_load_creds, with none standing for a
NULL pointer; strnlen(s, 64) == 0 holds exactly when the string is empty.
join_ok is the value wifi_join would return. -/
def memfault_esp_port_wifi_autojoin (connected : Bool)
    (creds : Option String × Option String) (join_ok : Bool) : List Event :=
  if connected then []
  else
    Event.readCreds ::
      match creds with
      | (some ssid, some pass) =>
        if ssid.length = 0 ∨ pass.length = 0 then [Event.logDebug]
        else
          Event.logDebug :: Event.wifiJoinAttempt ::
            (if join_ok then [] else [Event.logDebug])
      | _ => [Event.logDebug]

/-- The guard condition of main.c line 244: credentials are missing or empty. -/
def credsMissing : Option String × Option String → Bool
  | (some ssid, some pass) => ssid.length = 0 || pass.length = 0
  | _ => true

/-- Shallow embedding of one iteration of the prv_ota_task loop
(main.c lines 263-281), with CONFIG_MEMFAULT_APP_WIFI_AUTOJOIN enabled.
connected is the value the connectivity predicate returns throughout the tick. -/
def prv_ota_task_tick (connected : Bool) (creds : Option String × Option String)
    (join_ok : Bool) (b : OtaBehavior) : TickResult :=
  let pre := Event.metricAdd :: memfault_esp_port_wifi_autojoin connected creds join_ok
  if connected then
    match prv_memfault_ota connected b with
    | .finished evs => .finished (pre ++ evs)
    | .restarted evs => .restarted (pre ++ evs)
  else
    .finished (pre ++ [Event.ledSet .Red])

/-- Modelled from the spec: the Metrics Session Tracker state transition
(ota_session_metrics_start and ota_session_metrics_end are declared in
ota_session_metrics.h but their implementation is not under this source tree).
The tracker holds a single open-session slot: start opens it (no-op when already
open), end closes it (no-op when none open); either way at most one session slot
exists. -/
def sessionStep (isOpen : Bool) (e : Event) : Bool :=
  match e with
  | .sessionStart => true
  | .sessionEnd _ => false
  | _ => isOpen

/-- Whether a session is open after a trace, starting from isOpen. -/
def sessionAfter (isOpen : Bool) (evs : List Event) : Bool :=
  evs.foldl sessionStep isOpen

/-- The indicator color after a trace, starting from c0 (last-writer-wins). -/
def lastLed (c0 : LedColor) (evs : List Event) : LedColor :=
  evs.foldl (fun c e => match e with | .ledSet c2 => c2 | _ => c) c0

/-- Event a occurs strictly before event b in the trace l. -/
def occursBefore (l : List Event) (a b : Event) : Prop :=
  ∃ l1 l2 l3, l = l1 ++ a :: l2 ++ b :: l3

/-- Modelled from the spec: one Liveness Watchdog entry (the task-watchdog
implementation behind MEMFAULT_TASK_WATCHDOG_START, MEMFAULT_TASK_WATCHDOG_STOP and
memfault_task_watchdog_check_all is not under this source tree): the Armed state and
the last reset stamp. -/
structure WatchdogEntry where
  armed : Bool
  last_reset_tick : Nat
deriving DecidableEq, Repr

/-- Modelled from the spec: start arms the entry and stamps last_reset_tick with the
current time; calling it while already armed just re-stamps. -/
def watchdog_start (now : Nat) (e : WatchdogEntry) : WatchdogEntry :=
  { armed := true, last_reset_tick := now }

/-- Modelled from the spec: stop disarms the entry unconditionally. -/
def watchdog_stop (e : WatchdogEntry) : WatchdogEntry :=
  { e with armed := false }

/-- Modelled from the spec: the periodic checker flags an Armed entry whose stamp is
older than the configured timeout; checking never mutates the entry. -/
def watchdog_flagged (now timeout : Nat) (e : WatchdogEntry) : Bool :=
  e.armed && decide (timeout < now - e.last_reset_tick)

/-- Shallow embedding of the prv_example_task loop body as it affects the task's
watchdog entry (main.c lines 307-320): iteration i arms the entry at time s i
(MEMFAULT_TASK_WATCHDOG_START), then takes and gives its own recursive lock, and
disarms at time e i (MEMFAULT_TASK_WATCHDOG_STOP); e i - s i therefore includes the
time spent acquiring the lock. The value is the entry as the checker observes it at
time c, after n iterations have been scheduled. -/
def prv_example_task_entry (s e : Nat → Nat) (n c : Nat) : WatchdogEntry :=
  (List.range n).foldl
    (fun st i =>
      if e i ≤ c then watchdog_stop (watchdog_start (s i) st)
      else if s i ≤ c then watchdog_start (s i) st
      else st)
    { armed := false, last_reset_tick := 0 }

-- Sanity checks on concrete inputs (scenarios A-D of the spec).
example :
    prv_ota_task_tick false (none, none) true ⟨false, false, 0⟩ =
      .finished [.metricAdd, .readCreds, .logDebug, .ledSet .Red] := by decide

example :
    prv_memfault_ota true ⟨false, false, 0⟩ =
      .finished [.logInfo, .updateCheckCall, .syncSuccess, .logInfo,
        .ledSet .Green] := by decide

example :
    prv_memfault_ota true ⟨true, false, -2⟩ =
      .finished [.logInfo, .updateCheckCall, .ledSet .Blue, .logInfo, .sessionStart,
        .syncFailure, .logError, .sessionEnd (-2), .traceEvent,
        .logTriggerCollection, .ledSet .Red] := by decide

example :
    prv_memfault_ota true ⟨true, true, 0⟩ =
      .restarted [.logInfo, .updateCheckCall, .ledSet .Blue, .logInfo, .sessionStart,
        .logInfo, .sessionEnd 0, .rebootMark, .restart] := by decide

example :
    sessionAfter false
      (prv_ota_task_tick true (none, none) true ⟨true, false, 1⟩).events = true := by
  decide

-- Helper lemmas about the autojoin trace and the trace folds.

theorem mem_autojoin (connected : Bool) (creds : Option String × Option String)
    (jok : Bool) (e : Event)
    (h : e ∈ memfault_esp_port_wifi_autojoin connected creds jok) :
    e = Event.readCreds ∨ e = Event.logDebug ∨ e = Event.wifiJoinAttempt := by
  unfold memfault_esp_port_wifi_autojoin at h
  obtain ⟨s, p⟩ := creds
  cases connected <;> cases s <;> cases p <;> simp_all <;>
    first
    | tauto
    | (split_ifs at h <;> simp_all <;> tauto)

theorem sessionAfter_autojoin (connected : Bool)
    (creds : Option String × Option String) (jok : Bool) (b : Bool) :
    sessionAfter b (memfault_esp_port_wifi_autojoin connected creds jok) = b := by
  unfold memfault_esp_port_wifi_autojoin
  obtain ⟨s, p⟩ := creds
  cases connected <;> cases s <;> cases p <;> simp only [] <;> split_ifs <;> rfl

theorem lastLed_autojoin (connected : Bool)
    (creds : Option String × Option String) (jok : Bool) (c0 : LedColor) :
    lastLed c0 (memfault_esp_port_wifi_autojoin connected creds jok) = c0 := by
  unfold memfault_esp_port_wifi_autojoin
  obtain ⟨s, p⟩ := creds
  cases connected <;> cases s <;> cases p <;> simp only [] <;> split_ifs <;> rfl

theorem tick_events_connected (creds : Option String × Option String) (jok : Bool)
    (b : OtaBehavior) :
    (prv_ota_task_tick true creds jok b).events =
      Event.metricAdd :: (prv_memfault_ota true b).events := by
  unfold prv_ota_task_tick
  cases h : prv_memfault_ota true b <;>
    simp [TickResult.events, memfault_esp_port_wifi_autojoin, h]

theorem tick_events_disconnected (creds : Option String × Option String) (jok : Bool)
    (b : OtaBehavior) :
    (prv_ota_task_tick false creds jok b).events =
      Event.metricAdd ::
        (memfault_esp_port_wifi_autojoin false creds jok ++ [Event.ledSet .Red]) := by
  rfl

/-- C1: if the update-check flow reaches the download-complete callback, the metrics
session is closed with result code 0 strictly before the reboot-imminent marker is
set, which in turn happens strictly before the system restart is requested; the
restart is unconditional (it is in the trace for every such behaviour, and is its
last event) and the callback never returns control to the orchestrator tick: the
result is a restart, and no sync-counter or outcome-step event ever runs. -/
theorem c1_download_complete_ordering (b : OtaBehavior)
    (hdc : b.fires_download_complete = true) :
    ∃ evs, prv_memfault_ota true b = .restarted evs
      ∧ occursBefore evs (.sessionEnd 0) .rebootMark
      ∧ occursBefore evs .rebootMark .restart
      ∧ evs.getLast? = some .restart
      ∧ Event.syncSuccess ∉ evs ∧ Event.syncFailure ∉ evs := by
  cases hua : b.fires_update_available with
  | false =>
    have hres : prv_memfault_ota true b =
        .restarted [.logInfo, .updateCheckCall, .logInfo, .sessionEnd 0,
          .rebootMark, .restart] := by
      simp [prv_memfault_ota, memfault_esp_port_ota_update, hdc, hua,
        prv_handle_ota_upload_available, prv_handle_ota_download_complete]
    exact ⟨_, hres,
      ⟨[.logInfo, .updateCheckCall, .logInfo], [], [.restart], rfl⟩,
      ⟨[.logInfo, .updateCheckCall, .logInfo, .sessionEnd 0], [], [], rfl⟩,
      rfl, by decide, by decide⟩
  | true =>
    have hres : prv_memfault_ota true b =
        .restarted [.logInfo, .updateCheckCall, .ledSet .Blue, .logInfo,
          .sessionStart, .logInfo, .sessionEnd 0, .rebootMark, .restart] := by
      simp [prv_memfault_ota, memfault_esp_port_ota_update, hdc, hua,
        prv_handle_ota_upload_available, prv_handle_ota_download_complete]
    exact ⟨_, hres,
      ⟨[.logInfo, .updateCheckCall, .ledSet .Blue, .logInfo, .sessionStart,
        .logInfo], [], [.restart], rfl⟩,
      ⟨[.logInfo, .updateCheckCall, .ledSet .Blue, .logInfo, .sessionStart,
        .logInfo, .sessionEnd 0], [], [], rfl⟩,
      rfl, by decide, by decide⟩

/-- Witness for c1_download_complete_ordering at the concrete behaviour where both
callbacks fire. -/
theorem c1_download_complete_ordering_witness :
    ∃ evs, prv_memfault_ota true ⟨true, true, 0⟩ = .restarted evs
      ∧ occursBefore evs (.sessionEnd 0) .rebootMark
      ∧ occursBefore evs .rebootMark .restart
      ∧ evs.getLast? = some .restart
      ∧ Event.syncSuccess ∉ evs ∧ Event.syncFailure ∉ evs :=
  c1_download_complete_ordering ⟨true, true, 0⟩ rfl

/-- C2 counterexample: in the connected tick whose update-available callback fires and
whose update-check returns 1, a session is opened within the tick and is still open
when the tick ends, so it is not closed before the tick boundary. -/
theorem c2_counterexample :
    Event.sessionStart ∈
        (prv_ota_task_tick true (none, none) true ⟨true, false, 1⟩).events
      ∧ sessionAfter false
          (prv_ota_task_tick true (none, none) true ⟨true, false, 1⟩).events = true := by
  decide


theorem sessionStart_mem_ota (conn : Bool) (b : OtaBehavior)
    (h : Event.sessionStart ∈ (prv_memfault_ota conn b).events) :
    conn = true ∧ b.fires_update_available = true := by
  cases conn with
  | false => simp [prv_memfault_ota, TickResult.events] at h
  | true =>
    refine ⟨rfl, ?_⟩
    by_contra hua
    rw [Bool.not_eq_true] at hua
    cases hdc : b.fires_download_complete with
    | true =>
      simp [prv_memfault_ota, memfault_esp_port_ota_update, hdc, hua,
        prv_handle_ota_download_complete, TickResult.events] at h
    | false =>
      by_cases h0 : b.rv = 0
      · simp [prv_memfault_ota, memfault_esp_port_ota_update, hdc, hua, h0,
          TickResult.events] at h
      · by_cases h1 : b.rv = 1
        · simp [prv_memfault_ota, memfault_esp_port_ota_update, hdc, hua, h0, h1,
            TickResult.events] at h
        · by_cases hneg : b.rv < 0
          · simp [prv_memfault_ota, memfault_esp_port_ota_update, hdc, hua, h0, h1,
              hneg, TickResult.events] at h
          · simp [prv_memfault_ota, memfault_esp_port_ota_update, hdc, hua, h0, h1,
              hneg, TickResult.events] at h

theorem sessionAfter_ota_neg (b : OtaBehavior) (s : Bool)
    (hdc : b.fires_download_complete = false) (hneg : b.rv < 0) :
    sessionAfter s (prv_memfault_ota true b).events = false := by
  have h01 : ¬(b.rv = 0 ∨ b.rv = 1) := by omega
  have h0 : ¬(b.rv = 0) := by omega
  have h1 : ¬(b.rv = 1) := by omega
  cases hua : b.fires_update_available <;>
    simp [prv_memfault_ota, memfault_esp_port_ota_update, hdc, hua, h01, h0, h1,
      hneg, prv_handle_ota_upload_available, TickResult.events, sessionAfter,
      sessionStep]

theorem sessionAfter_ota_nonneg (b : OtaBehavior)
    (hua : b.fires_update_available = true) (hdc : b.fires_download_complete = false)
    (hpos : 0 ≤ b.rv) :
    sessionAfter false (prv_memfault_ota true b).events = true := by
  by_cases h0 : b.rv = 0
  · simp [prv_memfault_ota, memfault_esp_port_ota_update, hdc, hua, h0,
      prv_handle_ota_upload_available, TickResult.events, sessionAfter, sessionStep]
  · by_cases h1 : b.rv = 1
    · simp [prv_memfault_ota, memfault_esp_port_ota_update, hdc, hua, h0, h1,
        prv_handle_ota_upload_available, TickResult.events, sessionAfter, sessionStep]
    · have h01 : ¬(b.rv = 0 ∨ b.rv = 1) := by tauto
      have hneg : ¬(b.rv < 0) := by omega
      simp [prv_memfault_ota, memfault_esp_port_ota_update, hdc, hua, h0, h1, h01,
        hneg, prv_handle_ota_upload_available, TickResult.events, sessionAfter,
        sessionStep]

theorem sessionAfter_tick_connected (creds : Option String × Option String)
    (jok : Bool) (b : OtaBehavior) (s : Bool) :
    sessionAfter s (prv_ota_task_tick true creds jok b).events =
      sessionAfter s (prv_memfault_ota true b).events := by
  rw [tick_events_connected]
  rfl

theorem sessionAfter_tick_disconnected (creds : Option String × Option String)
    (jok : Bool) (b : OtaBehavior) (s : Bool) :
    sessionAfter s (prv_ota_task_tick false creds jok b).events = s := by
  rw [tick_events_disconnected]
  simp only [sessionAfter, List.foldl_cons, List.foldl_append]
  have hstep1 : sessionStep s Event.metricAdd = s := rfl
  rw [hstep1]
  have h2 := sessionAfter_autojoin false creds jok s
  simp only [sessionAfter] at h2
  rw [h2]
  rfl

/-- C2 amended: the tracker holds a single session slot, so at most one session is
open at any time; a session is opened only within a connected tick whose
update-available callback fired; a session opened in a tick whose update-check
returns a negative code is closed before the tick ends; but a connected tick whose
update-available callback fired and whose update-check then returns a non-negative
value without reaching the download-complete callback leaves the session open
across the tick boundary. -/
theorem c2_session_discipline (connected : Bool)
    (creds : Option String × Option String) (jok : Bool) (b : OtaBehavior) :
    (Event.sessionStart ∈ (prv_ota_task_tick connected creds jok b).events →
      connected = true ∧ b.fires_update_available = true)
    ∧ (b.fires_download_complete = false → b.rv < 0 →
        sessionAfter false (prv_ota_task_tick connected creds jok b).events = false)
    ∧ (connected = true → b.fires_update_available = true →
        b.fires_download_complete = false → 0 ≤ b.rv →
        sessionAfter false (prv_ota_task_tick connected creds jok b).events
          = true) := by
  refine ⟨fun hmem => ?_, fun hdc hneg => ?_, fun hc hua hdc hpos => ?_⟩
  · cases connected with
    | false =>
      exfalso
      rw [tick_events_disconnected] at hmem
      rcases List.mem_cons.mp hmem with h | h
      · exact absurd h (by decide)
      · rcases List.mem_append.mp h with h | h
        · rcases mem_autojoin false creds jok _ h with h | h | h <;>
            exact absurd h (by decide)
        · exact absurd h (by decide)
    | true =>
      rw [tick_events_connected] at hmem
      rcases List.mem_cons.mp hmem with h | h
      · exact absurd h (by decide)
      · exact ⟨rfl, (sessionStart_mem_ota true b h).2⟩
  · cases connected with
    | false => exact sessionAfter_tick_disconnected creds jok b false
    | true =>
      rw [sessionAfter_tick_connected]
      exact sessionAfter_ota_neg b false hdc hneg
  · subst hc
    rw [sessionAfter_tick_connected]
    exact sessionAfter_ota_nonneg b hua hdc hpos

/-- Witness for c2_session_discipline: a failing connected tick closes the session
it opened before the tick ends. -/
theorem c2_session_discipline_witness :
    sessionAfter false
      (prv_ota_task_tick true (none, none) true ⟨true, false, -7⟩).events = false :=
  (c2_session_discipline true (none, none) true ⟨true, false, -7⟩).2.1 rfl (by decide)

theorem mem_disconnected_tick (creds : Option String × Option String) (jok : Bool)
    (b : OtaBehavior) (e : Event)
    (h : e ∈ (prv_ota_task_tick false creds jok b).events) :
    e = Event.metricAdd ∨ e = Event.readCreds ∨ e = Event.logDebug ∨
      e = Event.wifiJoinAttempt ∨ e = Event.ledSet .Red := by
  rw [tick_events_disconnected] at h
  rcases List.mem_cons.mp h with h | h
  · exact Or.inl h
  · rcases List.mem_append.mp h with h | h
    · rcases mem_autojoin false creds jok _ h with h | h | h <;> tauto
    · simp at h
      tauto

/-- C3: whenever the update-check call returns a negative value rv, that tick closes
the metrics session with exactly that code rv, emits a diagnostic trace event,
triggers a flush of buffered diagnostic logs, records a sync failure, and ends with
the indicator Red (whatever color the indicator had before), regardless of whether
the update-available callback fired earlier in the call. -/
theorem c3_negative_rv_handling (b : OtaBehavior)
    (hdc : b.fires_download_complete = false) (hneg : b.rv < 0) :
    ∃ evs, prv_memfault_ota true b = .finished evs
      ∧ Event.sessionEnd b.rv ∈ evs
      ∧ Event.traceEvent ∈ evs
      ∧ Event.logTriggerCollection ∈ evs
      ∧ Event.syncFailure ∈ evs
      ∧ (∀ c0, lastLed c0 evs = LedColor.Red) := by
  have h01 : ¬(b.rv = 0 ∨ b.rv = 1) := by omega
  have h0 : ¬(b.rv = 0) := by omega
  have h1 : ¬(b.rv = 1) := by omega
  cases hua : b.fires_update_available with
  | false =>
    refine ⟨[.logInfo, .updateCheckCall, .syncFailure, .logError, .sessionEnd b.rv,
      .traceEvent, .logTriggerCollection, .ledSet .Red],
      ?_, by simp, by simp, by simp, by simp, fun c0 => rfl⟩
    simp [prv_memfault_ota, memfault_esp_port_ota_update, hdc, hua, h01, h0, h1, hneg]
  | true =>
    refine ⟨[.logInfo, .updateCheckCall, .ledSet .Blue, .logInfo, .sessionStart,
      .syncFailure, .logError, .sessionEnd b.rv, .traceEvent, .logTriggerCollection,
      .ledSet .Red],
      ?_, by simp, by simp, by simp, by simp, fun c0 => rfl⟩
    simp [prv_memfault_ota, memfault_esp_port_ota_update, hdc, hua, h01, h0, h1,
      hneg, prv_handle_ota_upload_available]

/-- Witness for c3_negative_rv_handling at a concrete failing behaviour. -/
theorem c3_negative_rv_handling_witness :
    ∃ evs, prv_memfault_ota true ⟨true, false, -3⟩ = .finished evs
      ∧ Event.sessionEnd (-3) ∈ evs
      ∧ Event.traceEvent ∈ evs
      ∧ Event.logTriggerCollection ∈ evs
      ∧ Event.syncFailure ∈ evs
      ∧ (∀ c0, lastLed c0 evs = LedColor.Red) :=
  c3_negative_rv_handling ⟨true, false, -3⟩ rfl (by decide)

/-- C4: in every tick in which the connectivity predicate returns false, the tick
ends with the indicator Red (from any starting color), never invokes the
update-check capability, and opens no metrics session. -/
theorem c4_disconnected_tick (creds : Option String × Option String) (jok : Bool)
    (b : OtaBehavior) :
    ∃ evs, prv_ota_task_tick false creds jok b = .finished evs
      ∧ (∀ c0, lastLed c0 evs = LedColor.Red)
      ∧ Event.updateCheckCall ∉ evs
      ∧ Event.sessionStart ∉ evs := by
  refine ⟨(prv_ota_task_tick false creds jok b).events, ?_, ?_, ?_, ?_⟩
  · rfl
  · intro c0
    rw [tick_events_disconnected]
    simp only [lastLed, List.foldl_cons, List.foldl_append]
    rfl
  · intro hmem
    rcases mem_disconnected_tick creds jok b _ hmem with h | h | h | h | h <;>
      exact absurd h (by decide)
  · intro hmem
    rcases mem_disconnected_tick creds jok b _ hmem with h | h | h | h | h <;>
      exact absurd h (by decide)

/-- C5: a connected tick whose update-check returns 0 without either callback firing
ends with the indicator Green and neither opens nor closes a metrics session; in
general, a session-start event appears in an update-check tick only if the
update-available callback fired. -/
theorem c5_up_to_date_tick (b : OtaBehavior)
    (hua : b.fires_update_available = false)
    (hdc : b.fires_download_complete = false) (h0 : b.rv = 0) :
    (∃ evs, prv_memfault_ota true b = .finished evs
      ∧ (∀ c0, lastLed c0 evs = LedColor.Green)
      ∧ Event.sessionStart ∉ evs
      ∧ (∀ code, Event.sessionEnd code ∉ evs))
    ∧ ∀ (conn : Bool) (b2 : OtaBehavior),
        Event.sessionStart ∈ (prv_memfault_ota conn b2).events →
          b2.fires_update_available = true := by
  constructor
  · refine ⟨[.logInfo, .updateCheckCall, .syncSuccess, .logInfo, .ledSet .Green],
      ?_, fun c0 => rfl, by decide, fun code => by simp⟩
    simp [prv_memfault_ota, memfault_esp_port_ota_update, hdc, hua, h0]
  · exact fun conn b2 h => (sessionStart_mem_ota conn b2 h).2

/-- Witness for c5_up_to_date_tick at the concrete up-to-date behaviour. -/
theorem c5_up_to_date_tick_witness :
    (∃ evs, prv_memfault_ota true ⟨false, false, 0⟩ = .finished evs
      ∧ (∀ c0, lastLed c0 evs = LedColor.Green)
      ∧ Event.sessionStart ∉ evs
      ∧ (∀ code, Event.sessionEnd code ∉ evs))
    ∧ ∀ (conn : Bool) (b2 : OtaBehavior),
        Event.sessionStart ∈ (prv_memfault_ota conn b2).events →
          b2.fires_update_available = true :=
  c5_up_to_date_tick ⟨false, false, 0⟩ rfl rfl rfl

/-- C6: when the update-check returns 1 (update found, callbacks pending), the
outcome handling leaves the indicator exactly as the update-available callback left
it (Blue when that callback fired, otherwise the color the tick started with) and
touches nothing else: no session close, no trace event, no log-flush trigger, no
reboot mark, no restart. -/
theorem c6_update_available_frame (b : OtaBehavior)
    (hdc : b.fires_download_complete = false) (h1 : b.rv = 1) :
    ∃ evs, prv_memfault_ota true b = .finished evs
      ∧ (∀ c0, lastLed c0 evs =
          (if b.fires_update_available then LedColor.Blue else c0))
      ∧ (∀ code, Event.sessionEnd code ∉ evs)
      ∧ Event.traceEvent ∉ evs
      ∧ Event.logTriggerCollection ∉ evs
      ∧ Event.rebootMark ∉ evs
      ∧ Event.restart ∉ evs := by
  have h01 : b.rv = 0 ∨ b.rv = 1 := Or.inr h1
  have h0 : ¬(b.rv = 0) := by omega
  have hneg : ¬(b.rv < 0) := by omega
  cases hua : b.fires_update_available with
  | false =>
    refine ⟨[.logInfo, .updateCheckCall, .syncSuccess, .logInfo], ?_, ?_,
      fun code => by simp, by decide, by decide, by decide, by decide⟩
    · simp [prv_memfault_ota, memfault_esp_port_ota_update, hdc, hua, h01, h0, h1]
    · intro c0
      rfl
  | true =>
    refine ⟨[.logInfo, .updateCheckCall, .ledSet .Blue, .logInfo, .sessionStart,
      .syncSuccess, .logInfo], ?_, ?_,
      fun code => by simp, by decide, by decide, by decide, by decide⟩
    · simp [prv_memfault_ota, memfault_esp_port_ota_update, hdc, hua, h01, h0, h1,
        prv_handle_ota_upload_available]
    · intro c0
      rfl

/-- Witness for c6_update_available_frame at the concrete update-found behaviour. -/
theorem c6_update_available_frame_witness :
    ∃ evs, prv_memfault_ota true ⟨true, false, 1⟩ = .finished evs
      ∧ (∀ c0, lastLed c0 evs =
          (if (OtaBehavior.mk true false 1).fires_update_available then
            LedColor.Blue else c0))
      ∧ (∀ code, Event.sessionEnd code ∉ evs)
      ∧ Event.traceEvent ∉ evs
      ∧ Event.logTriggerCollection ∉ evs
      ∧ Event.rebootMark ∉ evs
      ∧ Event.restart ∉ evs :=
  c6_update_available_frame ⟨true, false, 1⟩ rfl rfl

/-- C9: when the update-check returns a positive value other than 1, the tick records
a sync failure and otherwise performs no action: the indicator is exactly what the
callbacks left (Blue when the update-available callback fired, else unchanged), no
session is closed, no trace event or log flush fires, and no restart happens (the
loop proceeds to the next tick). -/
theorem c9_positive_other_rv (b : OtaBehavior)
    (hdc : b.fires_download_complete = false) (hgt : 1 < b.rv) :
    ∃ evs, prv_memfault_ota true b = .finished evs
      ∧ Event.syncFailure ∈ evs
      ∧ (∀ c0, lastLed c0 evs =
          (if b.fires_update_available then LedColor.Blue else c0))
      ∧ (∀ code, Event.sessionEnd code ∉ evs)
      ∧ Event.traceEvent ∉ evs
      ∧ Event.logTriggerCollection ∉ evs
      ∧ Event.restart ∉ evs := by
  have h01 : ¬(b.rv = 0 ∨ b.rv = 1) := by omega
  have h0 : ¬(b.rv = 0) := by omega
  have h1 : ¬(b.rv = 1) := by omega
  have hneg : ¬(b.rv < 0) := by omega
  cases hua : b.fires_update_available with
  | false =>
    refine ⟨[.logInfo, .updateCheckCall, .syncFailure], ?_, by simp, ?_,
      fun code => by simp, by decide, by decide, by decide⟩
    · simp [prv_memfault_ota, memfault_esp_port_ota_update, hdc, hua, h01, h0, h1,
        hneg]
    · intro c0
      rfl
  | true =>
    refine ⟨[.logInfo, .updateCheckCall, .ledSet .Blue, .logInfo, .sessionStart,
      .syncFailure], ?_, by simp, ?_,
      fun code => by simp, by decide, by decide, by decide⟩
    · simp [prv_memfault_ota, memfault_esp_port_ota_update, hdc, hua, h01, h0, h1,
        hneg, prv_handle_ota_upload_available]
    · intro c0
      rfl

/-- Witness for c9_positive_other_rv at the concrete behaviour returning 2. -/
theorem c9_positive_other_rv_witness :
    ∃ evs, prv_memfault_ota true ⟨false, false, 2⟩ = .finished evs
      ∧ Event.syncFailure ∈ evs
      ∧ (∀ c0, lastLed c0 evs =
          (if (OtaBehavior.mk false false 2).fires_update_available then
            LedColor.Blue else c0))
      ∧ (∀ code, Event.sessionEnd code ∉ evs)
      ∧ Event.traceEvent ∉ evs
      ∧ Event.logTriggerCollection ∉ evs
      ∧ Event.restart ∉ evs :=
  c9_positive_other_rv ⟨false, false, 2⟩ rfl (by decide)

/-- C7: on every invocation of the auto-join step while not connected, the stored
credentials are read from the settings collaborator; when the SSID or password is
absent or empty the step attempts no join and reports no error; otherwise exactly
one join is attempted, and a failed join only adds a debug log (no retry within the
step: the trace of a failed join is read, debug, one attempt, debug). No branch
emits an error log. -/
theorem c7_autojoin_step (creds : Option String × Option String) (jok : Bool) :
    Event.readCreds ∈ memfault_esp_port_wifi_autojoin false creds jok
    ∧ (credsMissing creds = true →
        Event.wifiJoinAttempt ∉ memfault_esp_port_wifi_autojoin false creds jok)
    ∧ (credsMissing creds = false →
        (memfault_esp_port_wifi_autojoin false creds jok).count
          Event.wifiJoinAttempt = 1)
    ∧ (credsMissing creds = false → jok = false →
        memfault_esp_port_wifi_autojoin false creds jok =
          [Event.readCreds, Event.logDebug, Event.wifiJoinAttempt, Event.logDebug])
    ∧ Event.logError ∉ memfault_esp_port_wifi_autojoin false creds jok := by
  obtain ⟨s, p⟩ := creds
  cases s with
  | none =>
    cases p with
    | none =>
      have hred : memfault_esp_port_wifi_autojoin false (none, none) jok
          = [Event.readCreds, Event.logDebug] := rfl
      rw [hred]
      exact ⟨by decide, fun _ => by decide, fun h => by simp [credsMissing] at h,
        fun h => by simp [credsMissing] at h, by decide⟩
    | some v =>
      have hred : memfault_esp_port_wifi_autojoin false (none, some v) jok
          = [Event.readCreds, Event.logDebug] := rfl
      rw [hred]
      exact ⟨by decide, fun _ => by decide, fun h => by simp [credsMissing] at h,
        fun h => by simp [credsMissing] at h, by decide⟩
  | some ssid =>
    cases p with
    | none =>
      have hred : memfault_esp_port_wifi_autojoin false (some ssid, none) jok
          = [Event.readCreds, Event.logDebug] := rfl
      rw [hred]
      exact ⟨by decide, fun _ => by decide, fun h => by simp [credsMissing] at h,
        fun h => by simp [credsMissing] at h, by decide⟩
    | some pass =>
      by_cases hemp : ssid.length = 0 ∨ pass.length = 0
      · have hred : memfault_esp_port_wifi_autojoin false (some ssid, some pass) jok
            = [Event.readCreds, Event.logDebug] := by
          simp [memfault_esp_port_wifi_autojoin, hemp]
        have hmiss : credsMissing (some ssid, some pass) = true := by
          simp only [credsMissing, Bool.or_eq_true, decide_eq_true_eq]
          exact hemp
        rw [hred]
        refine ⟨by decide, fun _ => by decide, fun h => ?_, fun h => ?_,
          by decide⟩ <;> rw [hmiss] at h <;> exact absurd h (by decide)
      · have hmiss : credsMissing (some ssid, some pass) = false := by
          simp only [credsMissing, Bool.or_eq_false_iff, decide_eq_false_iff_not]
          tauto
        have hred : memfault_esp_port_wifi_autojoin false (some ssid, some pass) jok
            = Event.readCreds :: Event.logDebug :: Event.wifiJoinAttempt ::
                (if jok then [] else [Event.logDebug]) := by
          simp [memfault_esp_port_wifi_autojoin, hemp]
        rw [hred]
        cases jok with
        | true =>
          exact ⟨by decide, fun h => by rw [hmiss] at h; exact absurd h (by decide),
            fun _ => by decide, fun _ h => absurd h (by decide), by decide⟩
        | false =>
          exact ⟨by decide, fun h => by rw [hmiss] at h; exact absurd h (by decide),
            fun _ => by decide, fun _ _ => by decide, by decide⟩

/-- Witness for c7_autojoin_step with absent credentials: no join is attempted. -/
theorem c7_autojoin_step_witness :
    Event.wifiJoinAttempt ∉ memfault_esp_port_wifi_autojoin false (none, none) true :=
  (c7_autojoin_step (none, none) true).2.1 rfl

/-- C10: when the device is already connected, the auto-join step returns
immediately: its trace is empty, so no credentials are read, no join is attempted
and no log output is produced. -/
theorem c10_autojoin_connected_noop (creds : Option String × Option String)
    (jok : Bool) :
    memfault_esp_port_wifi_autojoin true creds jok = [] := rfl

/-- C8: in the example supervised task, every iteration re-stamps the entry's
last_reset_tick at its own start time (the guarded lock acquisition and release sit
between the start and the stop), and as long as each iteration finishes its
start/take/give/stop body within the timeout - that is, whenever the task is able
to acquire its own resource promptly - the checker never flags the task as stuck,
at any check instant, for any number of iterations. -/
theorem c8_example_task_never_stuck (s e : Nat → Nat) (timeout : Nat)
    (hse : ∀ i, s i ≤ e i) (hord : ∀ i, e i ≤ s (i + 1))
    (hfast : ∀ i, e i - s i ≤ timeout) :
    (∀ n c, watchdog_flagged c timeout (prv_example_task_entry s e n c) = false)
    ∧ (∀ n c, s n ≤ c → c < e n →
        prv_example_task_entry s e (n + 1) c =
          { armed := true, last_reset_tick := s n }) := by
  have hstep : ∀ n c, prv_example_task_entry s e (n + 1) c =
      (if e n ≤ c then
        watchdog_stop (watchdog_start (s n) (prv_example_task_entry s e n c))
      else if s n ≤ c then watchdog_start (s n) (prv_example_task_entry s e n c)
      else prv_example_task_entry s e n c) := by
    intro n c
    unfold prv_example_task_entry
    rw [List.range_succ, List.foldl_append, List.foldl_cons, List.foldl_nil]
  constructor
  · intro n
    induction n with
    | zero =>
      intro c
      rfl
    | succ n ih =>
      intro c
      rw [hstep]
      by_cases h1 : e n ≤ c
      · rw [if_pos h1]
        rfl
      · rw [if_neg h1]
        by_cases h2 : s n ≤ c
        · rw [if_pos h2]
          have hb := hfast n
          simp only [watchdog_flagged, watchdog_start, Bool.true_and,
            decide_eq_false_iff_not]
          omega
        · rw [if_neg h2]
          exact ih c
  · intro n c h2 h1
    rw [hstep]
    rw [if_neg (by omega), if_pos h2]
    rfl

/-- Witness for c8_example_task_never_stuck with the concrete schedule where
iteration i runs from time 2i to 2i+1 and the timeout is 5: the checker at time 4
after 3 iterations does not flag the task. -/
theorem c8_example_task_never_stuck_witness :
    watchdog_flagged 4 5
      (prv_example_task_entry (fun i => 2 * i) (fun i => 2 * i + 1) 3 4) = false :=
  (c8_example_task_never_stuck (fun i => 2 * i) (fun i => 2 * i + 1) 5
    (fun i => by change 2 * i ≤ 2 * i + 1; omega)
    (fun i => by change 2 * i + 1 ≤ 2 * (i + 1); omega)
    (fun i => by change 2 * i + 1 - 2 * i ≤ 5; omega)).1 3 4
